import Mathlib

/-!
Verification of the Omnara webhook server (src/app.py) against its
specification. The server is a stateless FastAPI application: a webhook
endpoint guarded by a shared-key header that dispatches on a JSON field
named action, two agent stub endpoints, and static informational
endpoints. Every handler is a pure function of the request body and the
current UTC time, which the embedding passes explicitly.
-/

namespace Omnara

/-- JSON values as produced by json parsing of a request body. Numbers are
modelled as integers, which covers every value the claims touch. Objects
keep their fields as an association list; lookup takes the first match,
which agrees with Python dictionaries since parsed dictionaries have
unique keys. -/
inductive Json where
  | null : Json
  | bool : Bool → Json
  | num : Int → Json
  | str : String → Json
  | arr : List Json → Json
  | obj : List (String × Json) → Json

mutual

/-- Python repr of a JSON-decoded value, as str() produces it for
non-string values: None, True, False, decimal integers, lists with
bracketed comma-separated elements, dictionaries with single-quoted keys.
String escaping inside nested reprs is not refined further; no claim
touches it. -/
def pyRepr : Json → String
  | .null => "None"
  | .bool true => "True"
  | .bool false => "False"
  | .num n => toString n
  | .str s => "\x27" ++ s ++ "\x27"
  | .arr xs => "[" ++ pyReprList xs ++ "]"
  | .obj kvs => "\x7b" ++ pyReprFields kvs ++ "\x7d"

def pyReprList : List Json → String
  | [] => ""
  | [x] => pyRepr x
  | x :: y :: xs => pyRepr x ++ ", " ++ pyReprList (y :: xs)

def pyReprFields : List (String × Json) → String
  | [] => ""
  | [(k, v)] => "\x27" ++ k ++ "\x27: " ++ pyRepr v
  | (k, v) :: p :: kvs => "\x27" ++ k ++ "\x27: " ++ pyRepr v ++ ", " ++ pyReprFields (p :: kvs)

end

/-- Python str() of a JSON-decoded value: the string itself for strings,
the repr for everything else. Used by the f-string in the default webhook
branch. -/
def pyStr : Json → String
  | .str s => s
  | j => pyRepr j

/-- Python truthiness of a JSON-decoded value: None, False, 0, the empty
string, the empty list and the empty dictionary are falsy. Used by the
`if not data` guard in create_agent. -/
def pyTruthy : Json → Bool
  | .null => false
  | .bool b => b
  | .num n => n != 0
  | .str s => s ≠ ""
  | .arr xs => !xs.isEmpty
  | .obj kvs => !kvs.isEmpty

/-- The Python type name of a JSON-decoded value, as it appears in an
AttributeError message. -/
def pyTypeName : Json → String
  | .null => "NoneType"
  | .bool _ => "bool"
  | .num _ => "int"
  | .str _ => "str"
  | .arr _ => "list"
  | .obj _ => "dict"

/-- The text of the AttributeError raised when .get is called on a value
that is not a dictionary, as str(e) renders it. -/
def noGetError (j : Json) : String :=
  "\x27" ++ pyTypeName j ++ "\x27 object has no attribute \x27get\x27"

/-- A UTC instant at second granularity, the part of datetime.utcnow()
that strftime(\x27%Y%m%d_%H%M%S\x27) observes. -/
structure DateTime where
  year : Nat
  month : Nat
  day : Nat
  hour : Nat
  minute : Nat
  second : Nat
deriving DecidableEq

/-- Field bounds guaranteed by a Python datetime value. -/
abbrev ValidTime (t : DateTime) : Prop :=
  1 ≤ t.year ∧ t.year ≤ 9999 ∧ 1 ≤ t.month ∧ t.month ≤ 12 ∧ 1 ≤ t.day ∧
  t.day ≤ 31 ∧ t.hour ≤ 23 ∧ t.minute ≤ 59 ∧ t.second ≤ 59

/-- Zero-padded two-digit decimal rendering, the strftime behaviour of
%m, %d, %H, %M and %S on the in-range field values of a datetime. -/
def pad2 (n : Nat) : String :=
  String.mk [Nat.digitChar (n / 10 % 10), Nat.digitChar (n % 10)]

/-- Zero-padded four-digit decimal rendering, the strftime behaviour of
%Y on the 1..9999 year of a datetime. -/
def pad4 (n : Nat) : String :=
  String.mk [Nat.digitChar (n / 1000 % 10), Nat.digitChar (n / 100 % 10),
    Nat.digitChar (n / 10 % 10), Nat.digitChar (n % 10)]

/-- The fabricated agent identifier:
agent_ followed by strftime(\x27%Y%m%d_%H%M%S\x27) of the current UTC
time (src/app.py line 88). -/
def agentId (t : DateTime) : String :=
  "agent_" ++ (pad4 t.year ++ pad2 t.month ++ pad2 t.day) ++ "_" ++
    (pad2 t.hour ++ pad2 t.minute ++ pad2 t.second)

/-- create_agent (src/app.py lines 82-95): substitute the empty
dictionary for a falsy config, fabricate an id from the current time, and
echo everything back. The function itself never raises. -/
def create_agent (data : Json) (t : DateTime) : Json :=
  let d := if pyTruthy data then data else Json.obj []
  Json.obj [("status", Json.str "success"),
    ("agent_id", Json.str (agentId t)),
    ("message", Json.str "Agent created successfully"),
    ("config", d)]

/-- list_agents (src/app.py lines 97-106): a hardcoded response,
independent of anything. -/
def list_agents : Json :=
  Json.obj [("status", Json.str "success"),
    ("agents", Json.arr [
      Json.obj [("id", Json.str "agent_1"), ("status", Json.str "running"),
        ("created", Json.str "2024-01-01")],
      Json.obj [("id", Json.str "agent_2"), ("status", Json.str "stopped"),
        ("created", Json.str "2024-01-02")]])]

/-- handle_deploy (src/app.py lines 108-120). Calling .get on a non-dict
data value raises an AttributeError, modelled as the error branch. -/
def handle_deploy : Json → Except String Json
  | .obj kvs =>
      Except.ok (Json.obj [("status", Json.str "success"),
        ("message", Json.str "Deployment initiated"),
        ("environment", (List.lookup "environment" kvs).getD (Json.str "production")),
        ("version", (List.lookup "version" kvs).getD (Json.str "latest"))])
  | j => Except.error (noGetError j)

/-- handle_code_review (src/app.py lines 122-134). -/
def handle_code_review : Json → Except String Json
  | .obj kvs =>
      Except.ok (Json.obj [("status", Json.str "success"),
        ("message", Json.str "Code review initiated"),
        ("repository", (List.lookup "repository" kvs).getD (Json.str "unknown")),
        ("branch", (List.lookup "branch" kvs).getD (Json.str "main"))])
  | j => Except.error (noGetError j)

/-- The body of the try block of webhook_handler (src/app.py lines
61-76): read action and data with their defaults, dispatch. An exception
escaping the block is the error branch; it arises when the payload or, in
the deploy and code_review branches, the data value is not a
dictionary. -/
def webhookTry (payload : Json) (t : DateTime) : Except String Json :=
  match payload with
  | .obj kvs =>
      let action := (List.lookup "action" kvs).getD (Json.str "unknown")
      let data := (List.lookup "data" kvs).getD (Json.obj [])
      match action with
      | .str "create_agent" => Except.ok (create_agent data t)
      | .str "deploy" => handle_deploy data
      | .str "code_review" => handle_code_review data
      | a => Except.ok (Json.obj [("status", Json.str "success"),
          ("message", Json.str ("Action \x27" ++ pyStr a ++ "\x27 received"))])
  | j => Except.error (noGetError j)

/-- An HTTP outcome: a 200 JSON body, or an HTTPException with a status
code and a detail string. -/
inductive HttpResponse where
  | ok : Json → HttpResponse
  | httpError : Nat → String → HttpResponse

/-- The default shared secret of src/app.py line 33, used when
OMNARA_API_KEY is unset. -/
def defaultApiKey : String := "B7hVKeNKPcVIL0lk"

/-- webhook_handler (src/app.py lines 54-80). The X-API-Key header is
None when absent; the comparison against the configured key happens
before the body is touched. The body argument is the outcome of
request.json (the parse error text on a malformed body); any exception
inside the try block becomes a 500 carrying str(e). -/
def webhook_handler (apiKey : String) (xApiKey : Option String)
    (body : Except String Json) (t : DateTime) : HttpResponse :=
  if xApiKey ≠ some apiKey then HttpResponse.httpError 401 "Invalid API key"
  else
    match body with
    | .error e => HttpResponse.httpError 500 e
    | .ok payload =>
        match webhookTry payload t with
        | .ok r => HttpResponse.ok r
        | .error e => HttpResponse.httpError 500 e

/-- The requests the claims are about. The direct POST /api/agents route
declares data with default None, so an absent body is none here. -/
inductive Request where
  | webhook : Option String → Except String Json → Request
  | agentsPost : Option Json → Request
  | agentsGet : Request

/-- Routing: one request, one response. The application keeps no state
between requests, so this is a pure function of the request and the
current time. -/
def handleRequest (apiKey : String) : Request → DateTime → HttpResponse
  | .webhook h b, t => webhook_handler apiKey h b t
  | .agentsPost b, t => HttpResponse.ok (create_agent (b.getD Json.null) t)
  | .agentsGet, _ => HttpResponse.ok list_agents

/-- A whole session: each request is handled independently. -/
def processRequests (apiKey : String) (rs : List (Request × DateTime)) : List HttpResponse :=
  rs.map fun rt => handleRequest apiKey rt.1 rt.2

/-- Field access on a JSON object response. -/
def getField : Json → String → Option Json
  | .obj kvs, k => List.lookup k kvs
  | _, _ => none

/-- A concrete instant used by witnesses and counterexamples. -/
def sampleTime : DateTime := ⟨2024, 1, 1, 12, 0, 0⟩

/-- The agent id pattern the claim asserts: agent_ followed by exactly 14
digit characters. -/
def matchesAgent14 (s : String) : Bool :=
  s.length == 20 && s.take 6 == "agent_" && (s.drop 6).data.all Char.isDigit

/-- The agent id shape the code produces: agent_, eight digits for the
date, an underscore, six digits for the time of day. -/
def agentTimestampPattern (s : String) : Prop :=
  ∃ a b : String, s = "agent_" ++ a ++ "_" ++ b ∧ a.length = 8 ∧
    b.length = 6 ∧ a.data.all Char.isDigit ∧ b.data.all Char.isDigit

theorem digitChar_isDigit : ∀ k, k < 10 → (Nat.digitChar k).isDigit = true := by
  decide

theorem pad2_all_digits (n : Nat) : (pad2 n).data.all Char.isDigit = true := by
  simp only [pad2, List.all_cons, List.all_nil, Bool.and_true]
  rw [digitChar_isDigit _ (Nat.mod_lt _ (by norm_num)),
    digitChar_isDigit _ (Nat.mod_lt _ (by norm_num))]
  rfl

theorem pad4_all_digits (n : Nat) : (pad4 n).data.all Char.isDigit = true := by
  simp only [pad4, List.all_cons, List.all_nil, Bool.and_true]
  rw [digitChar_isDigit _ (Nat.mod_lt _ (by norm_num)),
    digitChar_isDigit _ (Nat.mod_lt _ (by norm_num)),
    digitChar_isDigit _ (Nat.mod_lt _ (by norm_num)),
    digitChar_isDigit _ (Nat.mod_lt _ (by norm_num))]
  rfl

/-- C1: a missing or mismatching X-API-Key header on POST /webhook gives
a 401 whose detail says the key is invalid, whatever the body and the
configured key (the environment value or the default literal). -/
theorem auth_failure_gives_401 (apiKey : String) (xApiKey : Option String)
    (body : Except String Json) (t : DateTime) (h : xApiKey ≠ some apiKey) :
    webhook_handler apiKey xApiKey body t =
      HttpResponse.httpError 401 "Invalid API key" := by
  simp [webhook_handler, h]

/-- C1 witness: an absent header against the default key is rejected. -/
theorem auth_failure_gives_401_witness :
    webhook_handler defaultApiKey none (Except.error "Expecting value") sampleTime =
      HttpResponse.httpError 401 "Invalid API key" :=
  auth_failure_gives_401 defaultApiKey none (Except.error "Expecting value")
    sampleTime (by decide)

/-- C10: the key check precedes body parsing: an unauthenticated request
whose body failed to parse is answered 401, never the 500 of the
ProcessingFailure path. -/
theorem auth_checked_before_body (apiKey : String) (xApiKey : Option String)
    (e : String) (t : DateTime) (h : xApiKey ≠ some apiKey) :
    webhook_handler apiKey xApiKey (Except.error e) t =
        HttpResponse.httpError 401 "Invalid API key" ∧
      ∀ s : String, webhook_handler apiKey xApiKey (Except.error e) t ≠
        HttpResponse.httpError 500 s := by
  refine ⟨by simp [webhook_handler, h], fun s hc => ?_⟩
  rw [show webhook_handler apiKey xApiKey (Except.error e) t =
    HttpResponse.httpError 401 "Invalid API key" by simp [webhook_handler, h]] at hc
  exact absurd (HttpResponse.httpError.injEq .. ▸ hc).1 (by norm_num)

/-- C10 witness: a wrong header with a malformed body is a 401, not a
500 echoing the parse error. -/
theorem auth_checked_before_body_witness :
    webhook_handler defaultApiKey (some "wrong") (Except.error "Expecting value")
        sampleTime = HttpResponse.httpError 401 "Invalid API key" ∧
      webhook_handler defaultApiKey (some "wrong") (Except.error "Expecting value")
        sampleTime ≠ HttpResponse.httpError 500 "Expecting value" :=
  ⟨(auth_checked_before_body defaultApiKey (some "wrong") "Expecting value"
      sampleTime (by decide)).1,
    (auth_checked_before_body defaultApiKey (some "wrong") "Expecting value"
      sampleTime (by decide)).2 "Expecting value"⟩

/-- C7: with a valid key, a body that fails to parse is answered 500
carrying the parse error text, and any exception escaping the try block
is answered 500 carrying its str(e) text. -/
theorem exceptions_give_500 (apiKey : String) (t : DateTime) :
    (∀ e : String, webhook_handler apiKey (some apiKey) (Except.error e) t =
        HttpResponse.httpError 500 e) ∧
      ∀ (p : Json) (e : String), webhookTry p t = Except.error e →
        webhook_handler apiKey (some apiKey) (Except.ok p) t =
          HttpResponse.httpError 500 e := by
  refine ⟨fun e => by simp [webhook_handler], fun p e h => ?_⟩
  simp [webhook_handler, h]

/-- C7 witness: a malformed body, and a parsed body that is not a
dictionary (whose .get access raises), both become 500 with the
exception text. -/
theorem exceptions_give_500_witness :
    webhook_handler defaultApiKey (some defaultApiKey)
        (Except.error "Expecting value: line 1 column 1 (char 0)") sampleTime =
      HttpResponse.httpError 500 "Expecting value: line 1 column 1 (char 0)" ∧
    webhook_handler defaultApiKey (some defaultApiKey)
        (Except.ok (Json.str "oops")) sampleTime =
      HttpResponse.httpError 500
        "\x27str\x27 object has no attribute \x27get\x27" :=
  ⟨(exceptions_give_500 defaultApiKey sampleTime).1 _,
    (exceptions_give_500 defaultApiKey sampleTime).2 (Json.str "oops") _ rfl⟩

/-- C9: a falsy config value (None, False, 0, the empty string, the
empty list or the empty dictionary) is replaced by the empty dictionary,
so the echoed config field is exactly the empty object. -/
theorem falsy_config_echoes_empty (d : Json) (t : DateTime)
    (h : pyTruthy d = false) :
    create_agent d t = Json.obj [("status", Json.str "success"),
      ("agent_id", Json.str (agentId t)),
      ("message", Json.str "Agent created successfully"),
      ("config", Json.obj [])] := by
  simp [create_agent, h]

/-- C9 witness: the number 0 as config is echoed as the empty object. -/
theorem falsy_config_echoes_empty_witness :
    create_agent (Json.num 0) sampleTime = Json.obj [("status", Json.str "success"),
      ("agent_id", Json.str (agentId sampleTime)),
      ("message", Json.str "Agent created successfully"),
      ("config", Json.obj [])] :=
  falsy_config_echoes_empty (Json.num 0) sampleTime (by decide)

/-- C6: whatever requests were processed before it, a GET /api/agents
request is answered with the same fixed pair of agent descriptors. -/
theorem list_agents_fixed (apiKey : String) (prior : List (Request × DateTime))
    (t : DateTime) :
    processRequests apiKey (prior ++ [(Request.agentsGet, t)]) =
      processRequests apiKey prior ++ [HttpResponse.ok (Json.obj
        [("status", Json.str "success"),
         ("agents", Json.arr [
           Json.obj [("id", Json.str "agent_1"), ("status", Json.str "running"),
             ("created", Json.str "2024-01-01")],
           Json.obj [("id", Json.str "agent_2"), ("status", Json.str "stopped"),
             ("created", Json.str "2024-01-02")]])])] := by
  simp [processRequests, handleRequest, list_agents]

/-- C8: the webhook create_agent branch and the direct POST /api/agents
route run the same create_agent function on the same data, so their
responses agree at every instant. -/
theorem webhook_create_agent_refines_api (apiKey : String)
    (kvs : List (String × Json)) (d : Json) (t : DateTime)
    (ha : List.lookup "action" kvs = some (Json.str "create_agent"))
    (hd : (List.lookup "data" kvs).getD (Json.obj []) = d) :
    handleRequest apiKey (Request.webhook (some apiKey)
        (Except.ok (Json.obj kvs))) t =
      handleRequest apiKey (Request.agentsPost (some d)) t := by
  simp [handleRequest, webhook_handler, webhookTry, ha, hd]

/-- C8 witness: a concrete payload routed through the webhook equals the
direct route on its data field. -/
theorem webhook_create_agent_refines_api_witness :
    handleRequest defaultApiKey (Request.webhook (some defaultApiKey)
        (Except.ok (Json.obj [("action", Json.str "create_agent"),
          ("data", Json.obj [("name", Json.str "x")])]))) sampleTime =
      handleRequest defaultApiKey
        (Request.agentsPost (some (Json.obj [("name", Json.str "x")]))) sampleTime :=
  webhook_create_agent_refines_api defaultApiKey
    [("action", Json.str "create_agent"), ("data", Json.obj [("name", Json.str "x")])]
    (Json.obj [("name", Json.str "x")]) sampleTime rfl rfl

/-- C2 counterexample: the claim reads the echo message as starting with
a lowercase action, but the f-string on src/app.py line 76 capitalises
it: an authenticated call with the unrecognized action ping yields the
message with a capital A, which differs from the claimed text. -/
theorem unknown_action_message_capitalised :
    webhook_handler defaultApiKey (some defaultApiKey)
        (Except.ok (Json.obj [("action", Json.str "ping")])) sampleTime =
      HttpResponse.ok (Json.obj [("status", Json.str "success"),
        ("message", Json.str "Action \x27ping\x27 received")]) ∧
      ("Action \x27ping\x27 received" : String) ≠ "action \x27ping\x27 received" :=
  ⟨rfl, by decide⟩

/-- C2 amended: for an authenticated call whose action is a string other
than the three recognized ones, or absent (in which case it defaults to
unknown), the response is a success whose message echoes
Action \x27value\x27 received, with a capital A. -/
theorem unknown_action_echoed (apiKey : String) (kvs : List (String × Json))
    (a : String) (t : DateTime)
    (ha : List.lookup "action" kvs = some (Json.str a) ∨
      (List.lookup "action" kvs = none ∧ a = "unknown"))
    (h1 : a ≠ "create_agent") (h2 : a ≠ "deploy") (h3 : a ≠ "code_review") :
    webhook_handler apiKey (some apiKey) (Except.ok (Json.obj kvs)) t =
      HttpResponse.ok (Json.obj [("status", Json.str "success"),
        ("message", Json.str ("Action \x27" ++ a ++ "\x27 received"))]) := by
  rcases ha with h | ⟨h, rfl⟩ <;>
    simp [webhook_handler, webhookTry, h, h1, h2, h3, pyStr]

/-- C2 witness: a payload with no action field echoes
Action \x27unknown\x27 received. -/
theorem unknown_action_echoed_witness :
    webhook_handler defaultApiKey (some defaultApiKey)
        (Except.ok (Json.obj [("data", Json.obj [])])) sampleTime =
      HttpResponse.ok (Json.obj [("status", Json.str "success"),
        ("message", Json.str ("Action \x27" ++ "unknown" ++ "\x27 received"))]) :=
  unknown_action_echoed defaultApiKey [("data", Json.obj [])] "unknown" sampleTime
    (Or.inr ⟨rfl, rfl⟩) (by decide) (by decide) (by decide)

/-- C4: the deploy action answers success with the environment and
version read from data (defaulting to production and latest) and the
static message Deployment initiated. -/
theorem deploy_response (apiKey : String) (kvs : List (String × Json))
    (d : List (String × Json)) (t : DateTime)
    (ha : List.lookup "action" kvs = some (Json.str "deploy"))
    (hd : (List.lookup "data" kvs).getD (Json.obj []) = Json.obj d) :
    webhook_handler apiKey (some apiKey) (Except.ok (Json.obj kvs)) t =
      HttpResponse.ok (Json.obj [("status", Json.str "success"),
        ("message", Json.str "Deployment initiated"),
        ("environment", (List.lookup "environment" d).getD (Json.str "production")),
        ("version", (List.lookup "version" d).getD (Json.str "latest"))]) := by
  simp [webhook_handler, webhookTry, ha, hd, handle_deploy]

/-- C4 witness: the example of the spec, staging at version 2.1. -/
theorem deploy_response_witness :
    webhook_handler defaultApiKey (some defaultApiKey)
        (Except.ok (Json.obj [("action", Json.str "deploy"),
          ("data", Json.obj [("environment", Json.str "staging"),
            ("version", Json.str "2.1")])])) sampleTime =
      HttpResponse.ok (Json.obj [("status", Json.str "success"),
        ("message", Json.str "Deployment initiated"),
        ("environment", (List.lookup "environment"
          [("environment", Json.str "staging"), ("version", Json.str "2.1")]).getD
            (Json.str "production")),
        ("version", (List.lookup "version"
          [("environment", Json.str "staging"), ("version", Json.str "2.1")]).getD
            (Json.str "latest"))]) :=
  deploy_response defaultApiKey
    [("action", Json.str "deploy"),
      ("data", Json.obj [("environment", Json.str "staging"),
        ("version", Json.str "2.1")])]
    [("environment", Json.str "staging"), ("version", Json.str "2.1")]
    sampleTime rfl rfl

/-- C5: the code_review action answers success with the repository and
branch read from data (defaulting to unknown and main) and the static
message Code review initiated. -/
theorem code_review_response (apiKey : String) (kvs : List (String × Json))
    (d : List (String × Json)) (t : DateTime)
    (ha : List.lookup "action" kvs = some (Json.str "code_review"))
    (hd : (List.lookup "data" kvs).getD (Json.obj []) = Json.obj d) :
    webhook_handler apiKey (some apiKey) (Except.ok (Json.obj kvs)) t =
      HttpResponse.ok (Json.obj [("status", Json.str "success"),
        ("message", Json.str "Code review initiated"),
        ("repository", (List.lookup "repository" d).getD (Json.str "unknown")),
        ("branch", (List.lookup "branch" d).getD (Json.str "main"))]) := by
  simp [webhook_handler, webhookTry, ha, hd, handle_code_review]

/-- C5 witness: the example of the spec, repository r on branch dev. -/
theorem code_review_response_witness :
    webhook_handler defaultApiKey (some defaultApiKey)
        (Except.ok (Json.obj [("action", Json.str "code_review"),
          ("data", Json.obj [("repository", Json.str "r"),
            ("branch", Json.str "dev")])])) sampleTime =
      HttpResponse.ok (Json.obj [("status", Json.str "success"),
        ("message", Json.str "Code review initiated"),
        ("repository", (List.lookup "repository"
          [("repository", Json.str "r"), ("branch", Json.str "dev")]).getD
            (Json.str "unknown")),
        ("branch", (List.lookup "branch"
          [("repository", Json.str "r"), ("branch", Json.str "dev")]).getD
            (Json.str "main"))]) :=
  code_review_response defaultApiKey
    [("action", Json.str "code_review"),
      ("data", Json.obj [("repository", Json.str "r"), ("branch", Json.str "dev")])]
    [("repository", Json.str "r"), ("branch", Json.str "dev")]
    sampleTime rfl rfl

/-- C3 counterexample: at the sample instant the fabricated identifier
is agent_20240101_120000, whose suffix is eight digits, an underscore
and six digits; it does not match the claimed pattern of agent_ followed
by 14 digit characters. -/
theorem agent_id_not_14_digits :
    create_agent (Json.obj [("name", Json.str "x")]) sampleTime =
        Json.obj [("status", Json.str "success"),
          ("agent_id", Json.str "agent_20240101_120000"),
          ("message", Json.str "Agent created successfully"),
          ("config", Json.obj [("name", Json.str "x")])] ∧
      matchesAgent14 "agent_20240101_120000" = false :=
  ⟨rfl, by decide⟩

/-- C3 amended: a create_agent invocation with an object config echoes
the config unchanged and answers success, with an agent_id of the form
agent_ followed by eight digits, an underscore and six digits, derived
from the current UTC time at second granularity. -/
theorem create_agent_response_shape (dkvs : List (String × Json))
    (t : DateTime) (_h : ValidTime t) :
    getField (create_agent (Json.obj dkvs) t) "status" = some (Json.str "success") ∧
    getField (create_agent (Json.obj dkvs) t) "config" = some (Json.obj dkvs) ∧
    getField (create_agent (Json.obj dkvs) t) "agent_id" =
      some (Json.str (agentId t)) ∧
    agentTimestampPattern (agentId t) := by
  refine ⟨?_, ?_, ?_, ?_⟩
  · cases dkvs <;> simp [create_agent, getField, List.lookup, pyTruthy]
  · cases dkvs <;> simp [create_agent, getField, List.lookup, pyTruthy]
  · cases dkvs <;> simp [create_agent, getField, List.lookup, pyTruthy]
  · refine ⟨pad4 t.year ++ pad2 t.month ++ pad2 t.day,
      pad2 t.hour ++ pad2 t.minute ++ pad2 t.second, rfl, ?_, ?_, ?_, ?_⟩
    · simp [String.length_append, pad4, pad2, String.length_mk]
    · simp [String.length_append, pad2, String.length_mk]
    · simp [String.data_append, List.all_append, pad4_all_digits, pad2_all_digits]
    · simp [String.data_append, List.all_append, pad2_all_digits]

/-- C3 witness: the amended shape at the sample instant with the config
of the spec example. -/
theorem create_agent_response_shape_witness :
    getField (create_agent (Json.obj [("name", Json.str "x")]) sampleTime)
        "status" = some (Json.str "success") ∧
      getField (create_agent (Json.obj [("name", Json.str "x")]) sampleTime)
        "config" = some (Json.obj [("name", Json.str "x")]) ∧
      getField (create_agent (Json.obj [("name", Json.str "x")]) sampleTime)
        "agent_id" = some (Json.str (agentId sampleTime)) ∧
      agentTimestampPattern (agentId sampleTime) :=
  create_agent_response_shape [("name", Json.str "x")] sampleTime (by decide)

end Omnara
